import Mathlib

/-
Shallow embedding of the request-coalescing, TTL-caching balance-lookup
pipeline of the solana-api-testing repository:
  src/pkg/cache/cache.go        (TTL cache)
  src/pkg/mutex/mutex.go        (keyed coalescing lock registry)
  src/pkg/metrics/metrics.go    (metrics collector)
  src/internal/services/balance.go (lookup orchestrator)
  src/internal/services/health.go  (upstream Solana RPC client retry loop)

Modelling conventions:
  - Go time.Time / time.Duration are modelled as Int (nanosecond counts);
    time.Since(t) at observation instant now is now - t, and Go duration
    comparison is Int comparison.
  - Go float64 balances are modelled as Int: no claim depends on floating
    point arithmetic, only on which value flows where (the lamports/1e9
    conversion is absorbed into the upstream oracle).
  - Go maps are modelled as functions String -> Option entry.
  - A Go runtime fault (panic / fatal "unlock of unlocked mutex" /
    "close of closed channel") is modelled as the Option value none.
  - Concurrent interference on the shared cache while a caller waits for
    the per-key lock is modelled by an explicit function intf : Cache -> Cache
    applied between the first cache check and the post-lock re-check.
-/

namespace Solana

/-- CacheEntry from src/pkg/cache/cache.go: a cached balance with the
timestamp of its insertion. -/
structure CacheEntry where
  balance : Int
  timestamp : Int
  deriving Repr, DecidableEq

/-- Cache from src/pkg/cache/cache.go: data map, ttl, and the stop channel
state (stopChClosed models whether close(c.stopCh) has already run). -/
structure Cache where
  data : String → Option CacheEntry
  ttl : Int
  stopChClosed : Bool

/-- Cache.Get from src/pkg/cache/cache.go lines 37-52: returns (0, false)
when the key is absent, (0, false) when time.Since(entry.Timestamp) > ttl,
and (entry.Balance, true) otherwise. -/
def Cache.Get (c : Cache) (now : Int) (key : String) : Int × Bool :=
  match c.data key with
  | none => (0, false)
  | some entry =>
    if now - entry.timestamp > c.ttl then (0, false)
    else (entry.balance, true)

/-- Cache.Set from src/pkg/cache/cache.go lines 55-63: unconditional
overwrite with the current timestamp. -/
def Cache.Set (c : Cache) (now : Int) (key : String) (balance : Int) : Cache :=
  { c with data := fun k => if k = key then some ⟨balance, now⟩ else c.data k }

/-- Cache.Delete from src/pkg/cache/cache.go lines 66-71. -/
def Cache.Delete (c : Cache) (key : String) : Cache :=
  { c with data := fun k => if k = key then none else c.data k }

/-- Cache.Clear from src/pkg/cache/cache.go lines 74-79. -/
def Cache.Clear (c : Cache) : Cache :=
  { c with data := fun _ => none }

/-- Cache.removeExpired from src/pkg/cache/cache.go lines 105-115: the
background sweep deletes every entry with now.Sub(entry.Timestamp) > ttl. -/
def Cache.removeExpired (c : Cache) (now : Int) : Cache :=
  { c with data := fun k =>
      match c.data k with
      | none => none
      | some entry =>
        if now - entry.timestamp > c.ttl then none else some entry }

/-- Cache.Stop from src/pkg/cache/cache.go lines 118-120: close(c.stopCh)
with no guard; in Go closing an already-closed channel panics, modelled as
none. -/
def Cache.Stop (c : Cache) : Option Cache :=
  if c.stopChClosed then none
  else some { c with stopChClosed := true }

/-- mutexEntry from src/pkg/mutex/mutex.go: the per-key sync.Mutex (its
held/free state as a Bool) and the last access time used by the sweep. -/
structure MutexEntry where
  locked : Bool
  lastAccess : Int
  deriving Repr, DecidableEq

/-- RequestMutex from src/pkg/mutex/mutex.go: the registry map, the cleanup
TTL, the stopped flag guarded by stopMutex, and the stop channel state. -/
structure RequestMutex where
  mutexes : String → Option MutexEntry
  cleanupTTL : Int
  stopped : Bool
  stopChClosed : Bool

/-- RequestMutex.GetMutex from src/pkg/mutex/mutex.go lines 39-68: returns
the registry after looking up the key, refreshing lastAccess on an existing
entry, or creating a fresh entry (double-checked creation collapses to one
branch in the sequential model). -/
def RequestMutex.GetMutex (rm : RequestMutex) (now : Int) (address : String) :
    RequestMutex :=
  match rm.mutexes address with
  | some entry =>
    { rm with mutexes := fun k =>
        if k = address then some { entry with lastAccess := now }
        else rm.mutexes k }
  | none =>
    { rm with mutexes := fun k =>
        if k = address then some { locked := false, lastAccess := now }
        else rm.mutexes k }

/-- RequestMutex.Unlock from src/pkg/mutex/mutex.go lines 77-85: looks the
key up; when absent it does nothing; when present it calls
entry.mutex.Unlock() unconditionally, which in Go is a fatal runtime error
("unlock of unlocked mutex") when the mutex is not held — modelled as
none. -/
def RequestMutex.Unlock (rm : RequestMutex) (address : String) :
    Option RequestMutex :=
  match rm.mutexes address with
  | none => some rm
  | some entry =>
    if entry.locked then
      some { rm with mutexes := fun k =>
        if k = address then some { entry with locked := false }
        else rm.mutexes k }
    else none

/-- RequestMutex.removeUnused from src/pkg/mutex/mutex.go lines 110-125: the
idle sweep deletes an entry only when it is idle longer than cleanupTTL and
a non-blocking TryLock succeeds (the mutex is not held). -/
def RequestMutex.removeUnused (rm : RequestMutex) (now : Int) : RequestMutex :=
  { rm with mutexes := fun k =>
      match rm.mutexes k with
      | none => none
      | some entry =>
        if now - entry.lastAccess > rm.cleanupTTL ∧ entry.locked = false
        then none
        else some entry }

/-- RequestMutex.Stop from src/pkg/mutex/mutex.go lines 128-136: guarded by
the stopped flag, so a second call is a no-op and never closes the channel
twice. -/
def RequestMutex.Stop (rm : RequestMutex) : RequestMutex :=
  if rm.stopped then rm
  else { rm with stopped := true, stopChClosed := true }

/-- Metrics from src/pkg/metrics/metrics.go: counters and derived timing
aggregates (durations as Int). -/
structure Metrics where
  totalRequests : Int
  successfulRequests : Int
  failedRequests : Int
  averageResponseTime : Int
  minResponseTime : Int
  maxResponseTime : Int
  cacheHits : Int
  cacheMisses : Int
  rpcCalls : Int
  rpcFailures : Int
  averageRPCTime : Int
  activeRequests : Int
  mutexWaits : Int
  totalResponseTime : Int
  totalRPCTime : Int
  deriving Repr, DecidableEq

/-- NewMetricsCollector from src/pkg/metrics/metrics.go lines 47-54: all
fields zero except MinResponseTime, initialised to the maximum int64
duration. -/
def NewMetricsCollector : Metrics :=
  { totalRequests := 0, successfulRequests := 0, failedRequests := 0
    averageResponseTime := 0, minResponseTime := 2 ^ 63 - 1
    maxResponseTime := 0, cacheHits := 0, cacheMisses := 0
    rpcCalls := 0, rpcFailures := 0, averageRPCTime := 0
    activeRequests := 0, mutexWaits := 0
    totalResponseTime := 0, totalRPCTime := 0 }

/-- RecordRequest from src/pkg/metrics/metrics.go lines 57-60. -/
def RecordRequest (m : Metrics) : Metrics :=
  { m with totalRequests := m.totalRequests + 1
           activeRequests := m.activeRequests + 1 }

/-- RecordRequestComplete from src/pkg/metrics/metrics.go lines 63-91:
decrements ActiveRequests, bumps the success or failure counter, folds the
duration into the response-time aggregates, and recomputes the average from
the current TotalRequests. -/
def RecordRequestComplete (m : Metrics) (duration : Int) (success : Bool) :
    Metrics :=
  let m1 :=
    { m with activeRequests := m.activeRequests - 1
             successfulRequests :=
               if success then m.successfulRequests + 1
               else m.successfulRequests
             failedRequests :=
               if success then m.failedRequests
               else m.failedRequests + 1 }
  let m2 :=
    { m1 with totalResponseTime := m1.totalResponseTime + duration
              minResponseTime :=
                if duration < m1.minResponseTime then duration
                else m1.minResponseTime
              maxResponseTime :=
                if duration > m1.maxResponseTime then duration
                else m1.maxResponseTime }
  if m2.totalRequests > 0 then
    { m2 with averageResponseTime := m2.totalResponseTime / m2.totalRequests }
  else m2

/-- RecordCacheHit from src/pkg/metrics/metrics.go lines 94-96. -/
def RecordCacheHit (m : Metrics) : Metrics :=
  { m with cacheHits := m.cacheHits + 1 }

/-- RecordCacheMiss from src/pkg/metrics/metrics.go lines 99-101. -/
def RecordCacheMiss (m : Metrics) : Metrics :=
  { m with cacheMisses := m.cacheMisses + 1 }

/-- RecordRPCCall from src/pkg/metrics/metrics.go lines 104-122: bumps
RPCCalls (and RPCFailures on failure), folds the duration into the RPC time
aggregates, and recomputes the average from the just-incremented RPCCalls. -/
def RecordRPCCall (m : Metrics) (duration : Int) (success : Bool) : Metrics :=
  let m1 :=
    { m with rpcCalls := m.rpcCalls + 1
             rpcFailures :=
               if success then m.rpcFailures else m.rpcFailures + 1 }
  let m2 := { m1 with totalRPCTime := m1.totalRPCTime + duration }
  if m2.rpcCalls > 0 then
    { m2 with averageRPCTime := m2.totalRPCTime / m2.rpcCalls }
  else m2

/-- RecordMutexWait from src/pkg/metrics/metrics.go lines 125-127. -/
def RecordMutexWait (m : Metrics) : Metrics :=
  { m with mutexWaits := m.mutexWaits + 1 }

/-- Reset from src/pkg/metrics/metrics.go lines 158-180: zeroes every
counter and aggregate, and restores the MinResponseTime sentinel. -/
def Reset (m : Metrics) : Metrics :=
  let _ := m
  { totalRequests := 0, successfulRequests := 0, failedRequests := 0
    averageResponseTime := 0, minResponseTime := 2 ^ 63 - 1
    maxResponseTime := 0, cacheHits := 0, cacheMisses := 0
    rpcCalls := 0, rpcFailures := 0, averageRPCTime := 0
    activeRequests := 0, mutexWaits := 0
    totalResponseTime := 0, totalRPCTime := 0 }

/-- WalletBalance from src/internal/models/balance.go: address, balance and
the per-key error string (empty when no error). -/
structure WalletBalance where
  address : String
  balance : Int
  error : String
  deriving Repr, DecidableEq

/-- BalanceResponse from src/internal/models/balance.go: the ordered result
slice and the batch-level Cached flag. -/
structure BalanceResponse where
  balances : List WalletBalance
  cached : Bool
  deriving Repr, DecidableEq

/-- BalanceService from src/internal/services/balance.go: the orchestrator
owns the cache and the lock registry (metrics are observational and treated
separately). -/
structure BalanceService where
  cache : Cache
  requestMutex : RequestMutex

/-- Outcome of one per-key lookup: the WalletBalance written into the result
slice, the cached flag getBalanceWithCache returns, whether the upstream
client's GetBalance was called, and the cache / lock-registry state after
the call (the per-key lock is acquired and released inside the call, so the
final registry holds no lock taken by this caller). -/
structure LookupOutcome where
  result : WalletBalance
  cached : Bool
  rpcCalled : Bool
  cache : Cache
  requestMutex : RequestMutex

/-- getBalanceWithCache from src/internal/services/balance.go lines 112-185:
first cache check; on hit return the cached value. On miss, GetMutex plus
Lock (deferred Unlock); while this caller waited for the lock, concurrent
callers may have changed the cache, modelled by intf applied to the cache;
then the second cache check; on hit return that value without calling the
upstream. On a second miss call rpcClient.GetBalance (oracle rpc): an error
yields balance 0 with the formatted error string; a success is cached via
Cache.Set and returned. -/
def BalanceService.getBalanceWithCache (bs : BalanceService)
    (intf : Cache → Cache) (rpc : String → Except String Int) (now : Int)
    (address : String) : LookupOutcome :=
  let g1 := bs.cache.Get now address
  if g1.2 then
    { result := { address := address, balance := g1.1, error := "" }
      cached := true, rpcCalled := false
      cache := bs.cache, requestMutex := bs.requestMutex }
  else
    let rm := bs.requestMutex.GetMutex now address
    let c2 := intf bs.cache
    let g2 := c2.Get now address
    if g2.2 then
      { result := { address := address, balance := g2.1, error := "" }
        cached := true, rpcCalled := false
        cache := c2, requestMutex := rm }
    else
      match rpc address with
      | Except.error e =>
        { result := { address := address, balance := 0
                      error := "Failed to fetch balance: " ++ e }
          cached := false, rpcCalled := true
          cache := c2, requestMutex := rm }
      | Except.ok v =>
        { result := { address := address, balance := v, error := "" }
          cached := false, rpcCalled := true
          cache := c2.Set now address v, requestMutex := rm }

/-- Outcome of a batch call: the BalanceResponse, the call-level Go error
(always nil in the source), and the list of per-key lookups that ran. -/
structure BatchOutcome where
  response : BalanceResponse
  callError : Option String
  lookups : List LookupOutcome

/-- GetBalances from src/internal/services/balance.go lines 39-103: empty
input returns an empty Balances slice with Cached = false and a nil error
before any per-key work; otherwise one lookup per address runs, balances
at index i is the i-th address's lookup result, and Cached is true exactly
when every lookup reported cached (allCached starts true and is cleared
under a dedicated lock whenever a lookup was not cached). -/
def BalanceService.GetBalances (bs : BalanceService) (intf : Cache → Cache)
    (rpc : String → Except String Int) (now : Int)
    (addresses : List String) : BatchOutcome :=
  if addresses.isEmpty then
    { response := { balances := [], cached := false }
      callError := none, lookups := [] }
  else
    let lookups :=
      addresses.map (fun addr => bs.getBalanceWithCache intf rpc now addr)
    { response := { balances := lookups.map (fun o => o.result)
                    cached := lookups.all (fun o => o.cached) }
      callError := none, lookups := lookups }

/-- BalanceService.Stop from src/internal/services/balance.go lines 233-236:
calls cache.Stop() then requestMutex.Stop(); the whole call faults when
Cache.Stop faults. -/
def BalanceService.Stop (bs : BalanceService) : Option BalanceService :=
  match bs.cache.Stop with
  | none => none
  | some c => some { bs with cache := c, requestMutex := bs.requestMutex.Stop }

/-- RPCConfig from src/internal/config (fields used by the client's retry
loop): MaxRetries, the per-attempt Timeout, and the base RetryDelay. -/
structure RPCConfig where
  maxRetries : Nat
  timeout : Int
  retryDelay : Int
  deriving Repr, DecidableEq

/-- Trace of one SolanaClient.GetBalance call: the returned value, the
returned error (none on success), the sleeps performed between consecutive
attempts, and how many attempts were made. -/
structure RetryTrace where
  value : Int
  error : Option String
  delays : List Int
  attemptsMade : Nat
  deriving Repr, DecidableEq

/-- Retry loop of SolanaClient.GetBalance, src/internal/services/health.go
lines 317-339: attempt k; on success return the value; on error, when
retries remain, sleep RetryDelay * (attempt+1) and recurse, else keep the
last error. rem is the number of attempts still allowed after this one
(MaxRetries - k at the top-level call). -/
def retryAux (retryDelay : Int) (attempt : Nat → Except String Int) :
    Nat → Nat → RetryTrace
  | k, rem =>
    match attempt k with
    | Except.ok v => { value := v, error := none, delays := [], attemptsMade := 1 }
    | Except.error e =>
      match rem with
      | 0 => { value := 0, error := some e, delays := [], attemptsMade := 1 }
      | r + 1 =>
        let t := retryAux retryDelay attempt (k + 1) r
        { value := t.value, error := t.error
          delays := retryDelay * ((k : Int) + 1) :: t.delays
          attemptsMade := t.attemptsMade + 1 }

/-- SolanaClient.GetBalance from src/internal/services/health.go lines
310-342: parse the address (failure returns immediately with the invalid-
address error); otherwise run the retry loop, every attempt carrying the
configured per-attempt timeout, and wrap an exhausted-budget error in the
"failed to get balance from RPC after N attempts" message. The upstream RPC
is the oracle attempt, taking the attempt index and the per-attempt
timeout. -/
def SolanaClient.GetBalance (cfg : RPCConfig) (parse : Except String Unit)
    (attempt : Nat → Int → Except String Int) : RetryTrace :=
  match parse with
  | Except.error e =>
    { value := 0, error := some ("invalid wallet address: " ++ e)
      delays := [], attemptsMade := 0 }
  | Except.ok _ =>
    let t := retryAux cfg.retryDelay (fun k => attempt k cfg.timeout) 0
      cfg.maxRetries
    { t with error := t.error.map (fun e =>
        "failed to get balance from RPC after " ++
          toString (cfg.maxRetries + 1) ++ " attempts: " ++ e) }

/-- Pointwise order on the seven monotone counters of the metrics collector
(TotalRequests, SuccessfulRequests, FailedRequests, CacheHits, CacheMisses,
RPCCalls, RPCFailures). -/
def CountersLE (a b : Metrics) : Prop :=
  a.totalRequests ≤ b.totalRequests ∧
  a.successfulRequests ≤ b.successfulRequests ∧
  a.failedRequests ≤ b.failedRequests ∧
  a.cacheHits ≤ b.cacheHits ∧
  a.cacheMisses ≤ b.cacheMisses ∧
  a.rpcCalls ≤ b.rpcCalls ∧
  a.rpcFailures ≤ b.rpcFailures

/-- A registry holding one entry for key X whose mutex is not held. -/
def rmC5 : RequestMutex :=
  { mutexes := fun k =>
      if k = "X" then some { locked := false, lastAccess := 0 } else none
    cleanupTTL := 10, stopped := false, stopChClosed := false }

/-- A fresh cache with no entries and an open stop channel. -/
def cacheC6 : Cache :=
  { data := fun _ => none, ttl := 10, stopChClosed := false }

/-- A fresh lock registry with an open stop channel. -/
def rmC6 : RequestMutex :=
  { mutexes := fun _ => none, cleanupTTL := 10
    stopped := false, stopChClosed := false }

/-- A freshly constructed balance service. -/
def bsC6 : BalanceService := { cache := cacheC6, requestMutex := rmC6 }

/-- A cache holding a live entry for key X (inserted at 95, ttl 10, read at
100). -/
def cacheC7 : Cache :=
  { data := fun k =>
      if k = "X" then some { balance := 42, timestamp := 95 } else none
    ttl := 10, stopChClosed := false }

/-- A registry whose entry for key X was last accessed at time 0, with an
idle threshold of 50. -/
def rmC7 : RequestMutex :=
  { mutexes := fun k =>
      if k = "X" then some { locked := false, lastAccess := 0 } else none
    cleanupTTL := 50, stopped := false, stopChClosed := false }

/-- A service whose cache holds a live entry for key X while the lock
registry's entry for X is long idle. -/
def bsC7 : BalanceService := { cache := cacheC7, requestMutex := rmC7 }

/-- An upstream oracle that always fails (the hit path never consults it). -/
def rpcDown : String → Except String Int := fun _ => Except.error "down"

/-- A service with an empty cache and an empty lock registry. -/
def bsW : BalanceService :=
  { cache := { data := fun _ => none, ttl := 10, stopChClosed := false }
    requestMutex := rmC6 }

/-- Concurrent interference that fills the cache entry for key X at time 100
while the observed caller waits for the per-key lock. -/
def intfW : Cache → Cache := fun c => c.Set 100 "X" 7

/-- Retry configuration with MaxRetries 3, per-attempt timeout 5, base retry
delay 1. -/
def cfgC4 : RPCConfig := { maxRetries := 3, timeout := 5, retryDelay := 1 }

/-- Retry configuration with MaxRetries 2, per-attempt timeout 5, base retry
delay 1. -/
def cfgW4 : RPCConfig := { maxRetries := 2, timeout := 5, retryDelay := 1 }

/-- An upstream attempt oracle that fails on every attempt. -/
def attBoom : Nat → Int → Except String Int := fun _ _ => Except.error "boom"

/-- C2: for every key and observation time, Cache.Get returns found = true
exactly when an entry for the key is present with now - insertedAt <= ttl,
and then returns that entry's value; found = false when the key is absent or
now - insertedAt > ttl. -/
theorem cache_get_found_iff (c : Cache) (now : Int) (key : String) :
    ((c.Get now key).2 = true ↔
      ∃ e, c.data key = some e ∧ now - e.timestamp ≤ c.ttl) ∧
    (∀ e, c.data key = some e → now - e.timestamp ≤ c.ttl →
      c.Get now key = (e.balance, true)) := by
  unfold Cache.Get
  cases h : c.data key with
  | none => simp [h]
  | some e =>
    by_cases ht : now - e.timestamp > c.ttl
    · simp [h, ht]
      omega
    · simp [h, ht]
      omega

/-- C8: the read-time expiry check and the background sweep agree: Get
reports found = false exactly when removeExpired evaluated at the same time
leaves no entry for the key, and for a present entry the sweep deletes it
exactly when now - insertedAt > ttl. -/
theorem get_expiry_matches_sweep (c : Cache) (now : Int) (key : String) :
    ((c.Get now key).2 = false ↔ (c.removeExpired now).data key = none) ∧
    (∀ e, c.data key = some e →
      (now - e.timestamp > c.ttl ↔ (c.removeExpired now).data key = none)) := by
  unfold Cache.Get Cache.removeExpired
  cases h : c.data key with
  | none => simp [h]
  | some e =>
    by_cases ht : now - e.timestamp > c.ttl
    · simp [h, ht]
    · simp [h, ht]
      omega

/-- C10: GetBalances on the empty address list returns an empty result
slice, the batch Cached flag false, a nil call-level error, and runs no
per-key lookup at all (so neither the cache, nor the lock registry, nor the
upstream client is touched). -/
theorem GetBalances_empty (bs : BalanceService) (intf : Cache → Cache)
    (rpc : String → Except String Int) (now : Int) :
    (bs.GetBalances intf rpc now []).response.balances = [] ∧
    (bs.GetBalances intf rpc now []).response.cached = false ∧
    (bs.GetBalances intf rpc now []).callError = none ∧
    (bs.GetBalances intf rpc now []).lookups = [] :=
  ⟨rfl, rfl, rfl, rfl⟩

/-- C9: each of TotalRequests, SuccessfulRequests, FailedRequests,
CacheHits, CacheMisses, RPCCalls and RPCFailures is non-decreasing under
every recording operation of the metrics collector, and the explicit Reset
sets all seven back to zero. -/
theorem metrics_counters_monotone (m : Metrics) (d : Int) (s : Bool) :
    CountersLE m (RecordRequest m) ∧
    CountersLE m (RecordRequestComplete m d s) ∧
    CountersLE m (RecordCacheHit m) ∧
    CountersLE m (RecordCacheMiss m) ∧
    CountersLE m (RecordRPCCall m d s) ∧
    CountersLE m (RecordMutexWait m) ∧
    (Reset m).totalRequests = 0 ∧ (Reset m).successfulRequests = 0 ∧
    (Reset m).failedRequests = 0 ∧ (Reset m).cacheHits = 0 ∧
    (Reset m).cacheMisses = 0 ∧ (Reset m).rpcCalls = 0 ∧
    (Reset m).rpcFailures = 0 := by
  cases s <;>
    simp [CountersLE, RecordRequest, RecordRequestComplete, RecordCacheHit,
      RecordCacheMiss, RecordRPCCall, RecordMutexWait, Reset] <;>
    split_ifs <;> simp

/-- C3: GetBalances always returns a nil call-level error and a result slice
as long as the input, the element at position i being exactly the result of
position i's own per-key lookup, which always carries that input address;
when a lookup's Error field is non-empty, that key's own upstream call
failed and only that element carries the failure (balance 0 and the
formatted error), every other element being its own key's lookup result. -/
theorem GetBalances_structure (bs : BalanceService) (intf : Cache → Cache)
    (rpc : String → Except String Int) (now : Int) (addresses : List String) :
    (bs.GetBalances intf rpc now addresses).callError = none ∧
    (bs.GetBalances intf rpc now addresses).response.balances.length =
      addresses.length ∧
    (∀ (i : Nat) (addr : String), addresses[i]? = some addr →
      (bs.GetBalances intf rpc now addresses).response.balances[i]? =
        some (bs.getBalanceWithCache intf rpc now addr).result) ∧
    (∀ addr, (bs.getBalanceWithCache intf rpc now addr).result.address =
      addr) ∧
    (∀ addr, (bs.getBalanceWithCache intf rpc now addr).result.error ≠ "" →
      ∃ e, rpc addr = Except.error e ∧
        (bs.getBalanceWithCache intf rpc now addr).result =
          { address := addr, balance := 0
            error := "Failed to fetch balance: " ++ e }) := by
  refine ⟨?_, ?_, ?_, ?_, ?_⟩
  · cases addresses <;> rfl
  · cases addresses with
    | nil => rfl
    | cons a rest => simp [BalanceService.GetBalances]
  · intro i addr hi
    cases addresses with
    | nil => simp at hi
    | cons a rest =>
      show (((a :: rest).map fun addr =>
          bs.getBalanceWithCache intf rpc now addr).map fun o => o.result)[i]? = _
      rw [List.getElem?_map, List.getElem?_map, hi]
      rfl
  · intro addr
    by_cases hg1 : (bs.cache.Get now addr).2 = true
    · simp [BalanceService.getBalanceWithCache, hg1]
    · by_cases hg2 : ((intf bs.cache).Get now addr).2 = true
      · simp [BalanceService.getBalanceWithCache, hg1, hg2]
      · cases hr : rpc addr <;>
          simp [BalanceService.getBalanceWithCache, hg1, hg2, hr]
  · intro addr herr
    by_cases hg1 : (bs.cache.Get now addr).2 = true
    · simp [BalanceService.getBalanceWithCache, hg1] at herr
    · by_cases hg2 : ((intf bs.cache).Get now addr).2 = true
      · simp [BalanceService.getBalanceWithCache, hg1, hg2] at herr
      · cases hr : rpc addr with
        | ok v => simp [BalanceService.getBalanceWithCache, hg1, hg2, hr] at herr
        | error e =>
          refine ⟨e, rfl, ?_⟩
          simp [BalanceService.getBalanceWithCache, hg1, hg2, hr]

/-- C1: in getBalanceWithCache, when the first cache check misses, the cache
is checked again after acquiring the per-key lock; if that second check
finds a live entry, its value is returned as cached (the lock having been
released on return) and the upstream client's GetBalance is not called — the
upstream is called exactly when the second check also misses. -/
theorem getBalanceWithCache_recheck (bs : BalanceService)
    (intf : Cache → Cache) (rpc : String → Except String Int) (now : Int)
    (address : String) (h1 : (bs.cache.Get now address).2 = false) :
    ((((intf bs.cache).Get now address).2 = true →
      (bs.getBalanceWithCache intf rpc now address).rpcCalled = false ∧
      (bs.getBalanceWithCache intf rpc now address).result.balance =
        ((intf bs.cache).Get now address).1 ∧
      (bs.getBalanceWithCache intf rpc now address).cached = true) ∧
    ((bs.getBalanceWithCache intf rpc now address).rpcCalled = true ↔
      ((intf bs.cache).Get now address).2 = false)) := by
  unfold BalanceService.getBalanceWithCache
  simp only [h1, Bool.false_eq_true, if_false]
  constructor
  · intro h2
    simp [h2]
  · cases h2 : ((intf bs.cache).Get now address).2 with
    | false =>
      simp only [h2, Bool.false_eq_true, if_false]
      cases rpc address <;> simp
    | true => simp [h2]

/-- C1 witness: with an empty cache, the first check for X misses; the
interference fills X with 7 at time 100 while the caller waits for the lock,
so the re-check hits, the call returns 7 as cached, and the failing upstream
oracle is never consulted. -/
theorem getBalanceWithCache_recheck_witness :
    ((((intfW bsW.cache).Get 100 "X").2 = true →
      (bsW.getBalanceWithCache intfW rpcDown 100 "X").rpcCalled = false ∧
      (bsW.getBalanceWithCache intfW rpcDown 100 "X").result.balance =
        ((intfW bsW.cache).Get 100 "X").1 ∧
      (bsW.getBalanceWithCache intfW rpcDown 100 "X").cached = true) ∧
    ((bsW.getBalanceWithCache intfW rpcDown 100 "X").rpcCalled = true ↔
      ((intfW bsW.cache).Get 100 "X").2 = false)) :=
  getBalanceWithCache_recheck bsW intfW rpcDown 100 "X" rfl

/-- C7 counterexample: a lookup for X served by the first cache check (a
successful hit) leaves the lock registry untouched, so the entry's
lastAccess stays 0 rather than being refreshed to the lookup time 100; the
idle sweep run at 100 (threshold 50) then evicts this actively used key. -/
theorem cache_hit_skips_lastAccess_refresh :
    (bsC7.getBalanceWithCache id rpcDown 100 "X").cached = true ∧
    (bsC7.getBalanceWithCache id rpcDown 100 "X").result.balance = 42 ∧
    (bsC7.getBalanceWithCache id rpcDown 100 "X").requestMutex.mutexes "X" =
      some { locked := false, lastAccess := 0 } ∧
    (0 : Int) ≠ 100 ∧
    (((bsC7.getBalanceWithCache id rpcDown 100 "X").requestMutex.removeUnused
        100).mutexes "X") = none := by
  refine ⟨rfl, rfl, rfl, by decide, ?_⟩
  simp [bsC7, rmC7, cacheC7, BalanceService.getBalanceWithCache, Cache.Get,
    RequestMutex.removeUnused]

/-- C7 amended: only a lookup whose first cache check misses refreshes the
lock entry's lastAccess stamp (GetMutex sets it to the lookup time, creating
the entry if absent); a lookup served by the first-check cache hit returns
without touching the lock registry at all. -/
theorem lastAccess_refresh_only_on_miss (bs : BalanceService)
    (intf : Cache → Cache) (rpc : String → Except String Int) (now : Int)
    (address : String) :
    ((bs.cache.Get now address).2 = false →
      ∃ e2, (bs.getBalanceWithCache intf rpc now
          address).requestMutex.mutexes address = some e2 ∧
        e2.lastAccess = now) ∧
    ((bs.cache.Get now address).2 = true →
      (bs.getBalanceWithCache intf rpc now address).requestMutex =
        bs.requestMutex) := by
  constructor
  · intro h1
    unfold BalanceService.getBalanceWithCache
    simp only [h1, Bool.false_eq_true, if_false]
    have hgm : ∃ e2, (bs.requestMutex.GetMutex now address).mutexes address =
        some e2 ∧ e2.lastAccess = now := by
      unfold RequestMutex.GetMutex
      cases h : bs.requestMutex.mutexes address with
      | none => exact ⟨{ locked := false, lastAccess := now }, by simp [h], rfl⟩
      | some e => exact ⟨{ e with lastAccess := now }, by simp [h], rfl⟩
    cases h2 : ((intf bs.cache).Get now address).2 with
    | true => simpa [h2] using hgm
    | false =>
      simp only [h2, Bool.false_eq_true, if_false]
      cases rpc address <;> simpa using hgm
  · intro h1
    unfold BalanceService.getBalanceWithCache
    simp [h1]

/-- C5 counterexample: the registry rmC5 tracks key X with its mutex not
held, and Unlock on X faults (Go: unlock of an unlocked sync.Mutex is a
fatal runtime error), so Unlock on a key whose lock is not currently held is
not always a safe no-op. -/
theorem unlock_unheld_tracked_faults :
    rmC5.mutexes "X" = some { locked := false, lastAccess := 0 } ∧
    rmC5.Unlock "X" = none := by
  constructor
  · rfl
  · simp [rmC5, RequestMutex.Unlock]

/-- C5 amended: Unlock on a key with no entry in the registry map is a safe
no-op that never faults and returns the registry unchanged; a tracked key's
Unlock unconditionally unlocks the underlying mutex, which faults when that
mutex is not held. -/
theorem unlock_untracked_noop (rm : RequestMutex) (address : String)
    (h : rm.mutexes address = none) :
    rm.Unlock address = some rm := by
  unfold RequestMutex.Unlock
  rw [h]

/-- C5 witness: key Y is untracked in rmC5, and Unlock on it returns the
registry unchanged. -/
theorem unlock_untracked_noop_witness : rmC5.Unlock "Y" = some rmC5 :=
  unlock_untracked_noop rmC5 "Y" (by simp [rmC5])

/-- C6: the first BalanceService.Stop succeeds, but a second Stop faults:
Cache.Stop closes the already-closed stop channel (a Go panic), even though
RequestMutex.Stop on its own is idempotent thanks to its stopped-flag
guard. -/
theorem stop_second_call_panics :
    (bsC6.Stop).isSome = true ∧
    ((bsC6.Stop).bind BalanceService.Stop) = none ∧
    rmC6.Stop.Stop = rmC6.Stop := by
  refine ⟨rfl, ?_, ?_⟩
  · simp [bsC6, cacheC6, rmC6, BalanceService.Stop, Cache.Stop,
      RequestMutex.Stop]
  · simp [rmC6, RequestMutex.Stop]

/-- Helper: when every attempt fails, the retry loop makes all rem + 1
remaining attempts, returns value 0 with the last attempt's error, and
sleeps retryDelay * (j + 1) after each failed attempt j except the last. -/
theorem retryAux_all_fail (d : Int) (attempt : Nat → Except String Int)
    (e : Nat → String) (hfail : ∀ k, attempt k = Except.error (e k)) :
    ∀ rem k, retryAux d attempt k rem =
      { value := 0, error := some (e (k + rem))
        delays := (List.range' k rem).map fun j : Nat => d * ((j : Int) + 1)
        attemptsMade := rem + 1 } := by
  intro rem
  induction rem with
  | zero =>
    intro k
    unfold retryAux
    rw [hfail k]
    rfl
  | succ r ih =>
    intro k
    unfold retryAux
    rw [hfail k]
    simp only [ih (k + 1), List.range'_succ, List.map_cons]
    have hk : k + (r + 1) = k + 1 + r := by omega
    rw [hk]

/-- C4 counterexample: with MaxRetries 3, base RetryDelay 1 and every
attempt failing, SolanaClient.GetBalance sleeps 1, 2 and 3 between its four
attempts — a sequence with no common ratio at all (2 * 2 is not 1 * 3), so
the inter-attempt delays are not exponentially increasing. -/
theorem retry_delays_not_exponential :
    (SolanaClient.GetBalance cfgC4 (Except.ok ()) attBoom).delays =
      [1, 2, 3] ∧
    ¬ ∃ r : Int, 2 ≤ r ∧ (2 : Int) = 1 * r ∧ (3 : Int) = 2 * r := by
  constructor
  · rfl
  · rintro ⟨r, h1, h2, h3⟩
    omega

/-- C4 amended: GetBalance hands every attempt the configured per-attempt
timeout and retries every upstream error up to MaxRetries + 1 attempts in
total, sleeping the linearly increasing delay RetryDelay * (k + 1) after the
k-th failed attempt; once the budget is exhausted it returns value 0 with an
error wrapping the last attempt's failure. -/
theorem GetBalance_retry_linear (cfg : RPCConfig)
    (attempt : Nat → Int → Except String Int) (e : Nat → String)
    (hfail : ∀ k, attempt k cfg.timeout = Except.error (e k)) :
    SolanaClient.GetBalance cfg (Except.ok ()) attempt =
      { value := 0
        error := some ("failed to get balance from RPC after " ++
          toString (cfg.maxRetries + 1) ++ " attempts: " ++ e cfg.maxRetries)
        delays := (List.range cfg.maxRetries).map fun j : Nat =>
          cfg.retryDelay * ((j : Int) + 1)
        attemptsMade := cfg.maxRetries + 1 } := by
  unfold SolanaClient.GetBalance
  rw [retryAux_all_fail cfg.retryDelay (fun k => attempt k cfg.timeout) e
    hfail cfg.maxRetries 0]
  simp [List.range_eq_range']

/-- C4 witness: with MaxRetries 2, timeout 5, RetryDelay 1 and every attempt
failing with boom, GetBalance makes 3 attempts, sleeps 1 then 2, and returns
value 0 with the wrapped last error. -/
theorem GetBalance_retry_linear_witness :
    SolanaClient.GetBalance cfgW4 (Except.ok ()) attBoom =
      { value := 0
        error := some ("failed to get balance from RPC after " ++
          toString (cfgW4.maxRetries + 1) ++ " attempts: " ++ "boom")
        delays := (List.range cfgW4.maxRetries).map fun j : Nat =>
          cfgW4.retryDelay * ((j : Int) + 1)
        attemptsMade := cfgW4.maxRetries + 1 } :=
  GetBalance_retry_linear cfgW4 attBoom (fun _ => "boom") (fun _ => rfl)

end Solana
